import Mathlib

/- Verification development for src/src/masternode.cpp of the MultiSys repository.

   The pure schedule functions (collateral table, block subsidy, collateral
   transition list) are embedded directly.  The scoring function is embedded
   over an explicit chain model with the double-SHA256 writer digest taken as
   an abstract function parameter (the hashing code is not part of src).
   The stateful record / announcement / heartbeat procedures are embedded as
   pure functions over an explicit registry (a map from collateral outpoint to
   record) and an environment structure collecting the external collaborators
   (chain, signer, spork, network) that are outside src. -/

/-- Modelled from the spec: number of base units per whole coin (the COIN
    constant of the amount header, which is not part of src).  The spec tables
    give all amounts in whole coins. -/
def COIN : Int := 100000000

/-- CMasternode::GetMasternodeNodeCollateral (masternode.cpp lines 336-399):
    a descending cascade of height tests returning the collateral amount. -/
def GetMasternodeNodeCollateral (nHeight : Int) : Int :=
  if nHeight > 53000000 then 100000 * COIN
  else if nHeight > 52999999 then 106921 * COIN
  else if nHeight > 51999999 then 112549 * COIN
  else if nHeight > 50999999 then 118472 * COIN
  else if nHeight > 49999999 then 124708 * COIN
  else if nHeight > 48999999 then 131271 * COIN
  else if nHeight > 47999999 then 138180 * COIN
  else if nHeight > 46999999 then 145453 * COIN
  else if nHeight > 45999999 then 153108 * COIN
  else if nHeight > 44999999 then 161166 * COIN
  else if nHeight > 43999999 then 169649 * COIN
  else if nHeight > 42999999 then 178578 * COIN
  else if nHeight > 41999999 then 187977 * COIN
  else if nHeight > 40999999 then 197870 * COIN
  else if nHeight > 39999999 then 208284 * COIN
  else if nHeight > 38999999 then 219247 * COIN
  else if nHeight > 37999999 then 230786 * COIN
  else if nHeight > 36999999 then 242933 * COIN
  else if nHeight > 35999999 then 255719 * COIN
  else if nHeight > 34999999 then 269177 * COIN
  else if nHeight > 33999999 then 283345 * COIN
  else if nHeight > 32999999 then 298258 * COIN
  else if nHeight > 31999999 then 313955 * COIN
  else if nHeight > 30999999 then 330479 * COIN
  else if nHeight > 29999999 then 347873 * COIN
  else if nHeight > 28999999 then 366182 * COIN
  else if nHeight > 27999999 then 385455 * COIN
  else if nHeight > 26999999 then 405742 * COIN
  else if nHeight > 25999999 then 427097 * COIN
  else if nHeight > 24999999 then 449576 * COIN
  else if nHeight > 23999999 then 473237 * COIN
  else if nHeight > 22999999 then 498145 * COIN
  else if nHeight > 21999999 then 524363 * COIN
  else if nHeight > 20999999 then 551961 * COIN
  else if nHeight > 19999999 then 581011 * COIN
  else if nHeight > 18999999 then 611591 * COIN
  else if nHeight > 17999999 then 555992 * COIN
  else if nHeight > 16999999 then 505447 * COIN
  else if nHeight > 15999999 then 459497 * COIN
  else if nHeight > 14999999 then 417725 * COIN
  else if nHeight > 13999999 then 379750 * COIN
  else if nHeight > 12999999 then 345227 * COIN
  else if nHeight > 11999999 then 313843 * COIN
  else if nHeight > 10999999 then 285312 * COIN
  else if nHeight > 9999999 then 259374 * COIN
  else if nHeight > 8999999 then 235795 * COIN
  else if nHeight > 7999999 then 214359 * COIN
  else if nHeight > 6999999 then 194872 * COIN
  else if nHeight > 5999999 then 177156 * COIN
  else if nHeight > 4999999 then 161051 * COIN
  else if nHeight > 3999999 then 146410 * COIN
  else if nHeight > 2999999 then 133100 * COIN
  else if nHeight > 1999999 then 121000 * COIN
  else if nHeight > 999999 then 110000 * COIN
  else if nHeight > 1 then 100000 * COIN
  else 0 * COIN

/-- CMasternode::GetBlockValue (masternode.cpp lines 401-593).  The consensus
    nMaxMoneyOut parameter and the nMoneySupply global live outside src and
    are passed explicitly.  Returns 0 when the supply is at or above the cap;
    otherwise computes the height subsidy and, when the supply plus the
    subsidy exceeds the cap, returns nMoneySupply + nSubsidy - maxMoneyOut
    exactly as the source does. -/
def GetBlockValue (maxMoneyOut nMoneySupply nHeight : Int) : Int :=
  if nMoneySupply ≥ maxMoneyOut then 0
  else
    let nSubsidy : Int :=
      if nHeight = 1 then 400200 * COIN
      else if nHeight ≤ 1000 then 100 * COIN
      else if nHeight ≤ 2700 then 110 * COIN
      else if nHeight ≤ 999999 then 100 * COIN
      else if nHeight ≤ 1999999 then 110 * COIN
      else if nHeight ≤ 2999999 then 121 * COIN
      else if nHeight ≤ 3999999 then 133 * COIN
      else if nHeight ≤ 4999999 then 146 * COIN
      else if nHeight ≤ 5999999 then 161 * COIN
      else if nHeight ≤ 6999999 then 177 * COIN
      else if nHeight ≤ 7999999 then 195 * COIN
      else if nHeight ≤ 8999999 then 214 * COIN
      else if nHeight ≤ 9999999 then 236 * COIN
      else if nHeight ≤ 10999999 then 259 * COIN
      else if nHeight ≤ 11999999 then 285 * COIN
      else if nHeight ≤ 12999999 then 314 * COIN
      else if nHeight ≤ 13999999 then 345 * COIN
      else if nHeight ≤ 14999999 then 380 * COIN
      else if nHeight ≤ 15999999 then 418 * COIN
      else if nHeight ≤ 16999999 then 459 * COIN
      else if nHeight ≤ 17999999 then 505 * COIN
      else if nHeight ≤ 18999999 then 556 * COIN
      else if nHeight ≤ 19999999 then 612 * COIN
      else if nHeight ≤ 20999999 then 581 * COIN
      else if nHeight ≤ 21999999 then 552 * COIN
      else if nHeight ≤ 22999999 then 524 * COIN
      else if nHeight ≤ 23999999 then 498 * COIN
      else if nHeight ≤ 24999999 then 473 * COIN
      else if nHeight ≤ 25999999 then 450 * COIN
      else if nHeight ≤ 26999999 then 427 * COIN
      else if nHeight ≤ 27999999 then 406 * COIN
      else if nHeight ≤ 28999999 then 385 * COIN
      else if nHeight ≤ 29999999 then 366 * COIN
      else if nHeight ≤ 30999999 then 348 * COIN
      else if nHeight ≤ 31999999 then 330 * COIN
      else if nHeight ≤ 32999999 then 314 * COIN
      else if nHeight ≤ 33999999 then 298 * COIN
      else if nHeight ≤ 34999999 then 283 * COIN
      else if nHeight ≤ 35999999 then 269 * COIN
      else if nHeight ≤ 36999999 then 256 * COIN
      else if nHeight ≤ 37999999 then 243 * COIN
      else if nHeight ≤ 38999999 then 231 * COIN
      else if nHeight ≤ 39999999 then 219 * COIN
      else if nHeight ≤ 40999999 then 209 * COIN
      else if nHeight ≤ 41999999 then 198 * COIN
      else if nHeight ≤ 42999999 then 188 * COIN
      else if nHeight ≤ 43999999 then 179 * COIN
      else if nHeight ≤ 44999999 then 170 * COIN
      else if nHeight ≤ 45999999 then 161 * COIN
      else if nHeight ≤ 46999999 then 153 * COIN
      else if nHeight ≤ 47999999 then 145 * COIN
      else if nHeight ≤ 48999999 then 138 * COIN
      else if nHeight ≤ 49999999 then 131 * COIN
      else if nHeight ≤ 50999999 then 125 * COIN
      else if nHeight ≤ 51999999 then 118 * COIN
      else if nHeight ≤ 52999999 then 113 * COIN
      else if nHeight ≤ 53999999 then 107 * COIN
      else 100 * COIN
    if nMoneySupply + nSubsidy > maxMoneyOut then nMoneySupply + nSubsidy - maxMoneyOut
    else nSubsidy

/-- Loop of CMasternode::InitMasternodeCollateralList (masternode.cpp lines
    602-612): scans heights upward starting at i, with fuel remaining
    iterations (the source runs i from 0 while i < 9999999), and records the
    pair (i, collateral i) whenever the collateral differs from the previously
    seen value prev (initially -1). -/
def collateralScan : Nat → Int → Int → List (Int × Int)
  | 0, _, _ => []
  | fuel + 1, i, prev =>
    if prev ≠ GetMasternodeNodeCollateral i then
      (i, GetMasternodeNodeCollateral i) :: collateralScan fuel (i + 1) (GetMasternodeNodeCollateral i)
    else
      collateralScan fuel (i + 1) prev

/-- vecCollaterals as materialized at startup by InitMasternodeCollateralList:
    the scan over heights 0 .. 9999998 starting from prev = -1. -/
def vecCollaterals : List (Int × Int) := collateralScan 9999999 0 (-1)

/-- Loop of CMasternode::GetNextMasternodeCollateral (masternode.cpp lines
    614-621): first recorded transition with height strictly above nHeight,
    as (blocks until, new amount); the sentinel (-1, -1) when none exists. -/
def findNextCollateral : List (Int × Int) → Int → Int × Int
  | [], _ => (-1, -1)
  | p :: rest, nHeight =>
    if p.1 > nHeight then (p.1 - nHeight, p.2) else findNextCollateral rest nHeight

/-- CMasternode::GetNextMasternodeCollateral over the materialized list. -/
def GetNextMasternodeCollateral (nHeight : Int) : Int × Int :=
  findNextCollateral vecCollaterals nHeight

/-- The explicit value of the materialized transition list, proved equal to
    vecCollaterals below.  The scan stops at height 9999998, so transitions at
    10000000 and beyond are absent. -/
def collateralTransitions : List (Int × Int) :=
  [(0, 0), (2, 100000 * COIN), (1000000, 110000 * COIN), (2000000, 121000 * COIN),
   (3000000, 133100 * COIN), (4000000, 146410 * COIN), (5000000, 161051 * COIN),
   (6000000, 177156 * COIN), (7000000, 194872 * COIN), (8000000, 214359 * COIN),
   (9000000, 235795 * COIN)]

/-- Walk of GetBlockHash (masternode.cpp lines 45-60): the chain is the list
    of (height, block hash) pairs from the tip backwards along pprev; n counts
    visited blocks and the hash of the first block with n at least nBlocksAgo
    is returned; the walk stops at height 0 or at the end of the chain. -/
def blockHashLoop : List (Int × Nat) → Int → Int → Option Nat
  | [], _, _ => none
  | (h, hsh) :: rest, n, nBlocksAgo =>
    if h > 0 then
      if n ≥ nBlocksAgo then some hsh
      else blockHashLoop rest (n + 1) nBlocksAgo
    else none

/-- GetBlockHash (masternode.cpp lines 28-63) without the per-height memo map
    (the cache only replays previously returned values).  Fails when there is
    no tip or the tip height is 0; a request for height 0 means the tip
    height; fails when the height exceeds tip height + 1. -/
def GetBlockHash (chain : List (Int × Nat)) (nBlockHeight : Int) : Option Nat :=
  match chain with
  | [] => none
  | (tipHeight, _) :: _ =>
    if tipHeight = 0 then none
    else
      let target := if nBlockHeight = 0 then tipHeight else nBlockHeight
      let nBlocksAgo : Int := if target > 0 then (tipHeight + 1) - target else 0
      if nBlocksAgo < 0 then none
      else blockHashLoop chain 0 nBlocksAgo

/-- CMasternode::CalculateScore (masternode.cpp lines 155-182).  Hser is the
    double-SHA256 hash-writer digest over the serialized 256-bit fields,
    modelled as an abstract function because the hashing code is not in src;
    256-bit values are Nats and the uint256 addition of the outpoint hash and
    the output index wraps modulo 2^256.  The mod parameter is carried but
    unused, as in the source. -/
def CalculateScore (Hser : List Nat → Nat) (chain : List (Int × Nat))
    (mod : Int) (prevoutHash prevoutN : Nat) (nBlockHeight : Int) : Nat :=
  if chain = [] then 0
  else
    let aux := (prevoutHash + prevoutN) % 2 ^ 256
    match GetBlockHash chain nBlockHeight with
    | none => 0
    | some hash =>
      let hash2 := Hser [hash]
      let hash3 := Hser [hash, aux]
      if hash3 > hash2 then hash3 - hash2 else hash2 - hash3

/-- Modelled from the spec: the score of section 4.5, the absolute difference
    of H1 = H(B) and H2 = H(B followed by aux) in 256-bit unsigned
    arithmetic. -/
def specScore (Hser : List Nat → Nat) (B aux : Nat) : Nat :=
  ((Hser [B] : Int) - (Hser [B, aux] : Int)).natAbs

/-- Masternode lifecycle states (the activeState constants of masternode.h,
    named as in the source). -/
inductive MasternodeState where
  | MASTERNODE_PRE_ENABLED
  | MASTERNODE_ENABLED
  | MASTERNODE_EXPIRED
  | MASTERNODE_REMOVE
  | MASTERNODE_VIN_SPENT
  deriving DecidableEq, Repr

/-- The two signing schemes of CSignedMessage, named as in the source. -/
inductive MessageVersion where
  | MESS_VER_STRMESS
  | MESS_VER_HASH
  deriving DecidableEq, Repr

/-- CMasternodePing wire data: collateral outpoint (32-byte tx hash and
    output index as Nats), referenced block hash, signature time, plus the
    CSignedMessage base fields. -/
structure CMasternodePing where
  vinPrevoutHash : Nat
  vinPrevoutN : Nat
  blockHash : Nat
  sigTime : Int
  nMessVersion : MessageVersion
  vchSig : List Nat
  deriving DecidableEq, Repr

/-- CMasternode record data.  CMasternodeBroadcast adds no data fields beyond
    the CMasternode base (its CSignedMessage fields nMessVersion and vchSig
    are included here), so the same structure serves records and broadcasts.
    The null lastPing of the source is the none case. -/
structure CMasternodeData where
  vinPrevoutHash : Nat
  vinPrevoutN : Nat
  vinScriptSig : List Nat
  addrPort : Nat
  pubKeyCollateralAddress : Nat
  pubKeyMasternode : Nat
  activeState : MasternodeState
  sigTime : Int
  lastPing : Option CMasternodePing
  protocolVersion : Int
  lastTimeChecked : Int
  unitTest : Bool
  nMessVersion : MessageVersion
  vchSig : List Nat
  deriving DecidableEq, Repr

/-- The registry (mnodeman map of vin to record), keyed by the collateral
    outpoint. -/
abbrev Registry := Nat × Nat → Option CMasternodeData

/-- Collateral outpoint of a ping. -/
def pingOutpoint (p : CMasternodePing) : Nat × Nat := (p.vinPrevoutHash, p.vinPrevoutN)

/-- Collateral outpoint of a record or broadcast. -/
def mnOutpoint (mn : CMasternodeData) : Nat × Nat := (mn.vinPrevoutHash, mn.vinPrevoutN)

/-- Point update of the registry. -/
def regSet (reg : Registry) (k : Nat × Nat) (v : Option CMasternodeData) : Registry :=
  fun k2 => if k2 = k then v else reg k2

/-- Modelled from the spec, section 3.6: rate limit of Check (masternode.h is
    not in src). -/
def MASTERNODE_CHECK_SECONDS : Int := 5

/-- Modelled from the spec, section 3.6: cool-down between accepted
    announcements, 5 minutes. -/
def MASTERNODE_MIN_MNB_SECONDS : Int := 300

/-- Modelled from the spec, section 3.6: ping gap needed to leave PreEnabled,
    10 minutes. -/
def MASTERNODE_MIN_MNP_SECONDS : Int := 600

/-- Modelled from the spec, section 3.6: expiration threshold, 65 minutes. -/
def MASTERNODE_EXPIRATION_SECONDS : Int := 3900

/-- Modelled from the spec, section 3.6: removal threshold, 75 minutes. -/
def MASTERNODE_REMOVAL_SECONDS : Int := 4500

/-- Modelled from the spec, section 3.6: confirmations required for the
    collateral UTXO. -/
def MASTERNODE_MIN_CONFIRMATIONS : Int := 15

/-- Modelled from the spec: the external collaborators (chain, wallet,
    signer, spork, active masternode) consulted by the procedures of
    masternode.cpp; they live outside src, so their answers are environment
    fields.  Times are GetTime and GetAdjustedTime; scriptSize gives the size
    of the P2PKH script derived from a public key; mnbSigOK and pingSigOK are
    the CheckSignature verdicts; acceptableInputs is the mempool acceptance
    predicate on the synthetic collateral-spending transaction of a record;
    acceptDoS is the score assigned by the validation state when it fails;
    blockIndexHeight is the mapBlockIndex lookup; collateralBlockHeight is
    the height of the block holding the collateral transaction (none when
    GetTransaction or the index lookup fails); blockTimeAt is the block time
    at a height of the active chain; isLocalActive tells whether the
    broadcast matches our own active masternode; upgradeActive is the
    network-upgrade flag selecting the signing scheme; the remaining fields
    model message serialization, signing and verification. -/
structure Env where
  adjustedTime : Int
  time : Int
  shutdownRequested : Bool
  activeProtocol : Int
  minPeerMnannounce : Int
  defaultPort : Nat
  chainHeight : Int
  scriptSize : Nat → Nat
  mnbSigOK : CMasternodeData → Bool
  pingSigOK : CMasternodePing → Nat → Bool
  lockMainOK : Bool
  acceptableInputs : CMasternodeData → Bool
  acceptDoS : Int
  burnSpent : Nat → Bool
  blockIndexHeight : Nat → Option Int
  chainContains : Nat → Bool
  coinDepth : Nat × Nat → Int
  collateralBlockHeight : Nat × Nat → Option Int
  blockTimeAt : Int → Int
  isLocalActive : CMasternodeData → Bool
  upgradeActive : Bool
  sigHashHex : CMasternodeData → Nat
  oldStrMessage : CMasternodeData → Nat
  magicHash : Nat → Nat
  signMessage : Nat → Option (List Nat)
  signCompact : Nat → Option (List Nat)
  verifyMessage : Nat → List Nat → Nat → Bool

/-- Modelled from the spec: CMasternode::IsPingedWithin of masternode.h (not
    in src): false when there is no ping, otherwise whether the ping is
    younger than the given number of seconds relative to now. -/
def IsPingedWithin (mn : CMasternodeData) (seconds now : Int) : Bool :=
  match mn.lastPing with
  | none => false
  | some p => if now - p.sigTime < seconds then true else false

/-- Modelled from the spec: CMasternode::IsBroadcastedWithin of masternode.h
    (not in src): whether the announcement sigTime is younger than the given
    number of seconds. -/
def IsBroadcastedWithin (mn : CMasternodeData) (seconds now : Int) : Bool :=
  if now - mn.sigTime < seconds then true else false

/-- Modelled from the spec: CMasternode::IsEnabled of masternode.h (not in
    src): the state equals MASTERNODE_ENABLED. -/
def IsEnabled (mn : CMasternodeData) : Bool :=
  if mn.activeState = MasternodeState.MASTERNODE_ENABLED then true else false

/-- sigTime of the last ping; the 0 default is never consulted, because every
    use is guarded by an IsPingedWithin test that is false on a null ping. -/
def lastPingSigTime (mn : CMasternodeData) : Int :=
  match mn.lastPing with
  | none => 0
  | some p => p.sigTime

/-- State cascade of CMasternode::Check (masternode.cpp lines 184-248): the
    MASTERNODE_VIN_SPENT early return keeps the state, missing pings give
    MASTERNODE_REMOVE then MASTERNODE_EXPIRED, a short ping gap gives
    MASTERNODE_PRE_ENABLED, a failed chain-lock attempt keeps the state, a
    rejected synthetic collateral spend or a burn-address hit gives
    MASTERNODE_VIN_SPENT, and otherwise the record becomes
    MASTERNODE_ENABLED.  The spendability test and the burn-address scan are
    environment predicates. -/
def CMasternode.checkNewState (env : Env) (mn : CMasternodeData) : MasternodeState :=
  if mn.activeState = MasternodeState.MASTERNODE_VIN_SPENT then mn.activeState
  else if IsPingedWithin mn MASTERNODE_REMOVAL_SECONDS env.adjustedTime = false then
    MasternodeState.MASTERNODE_REMOVE
  else if IsPingedWithin mn MASTERNODE_EXPIRATION_SECONDS env.adjustedTime = false then
    MasternodeState.MASTERNODE_EXPIRED
  else if lastPingSigTime mn - mn.sigTime < MASTERNODE_MIN_MNP_SECONDS then
    MasternodeState.MASTERNODE_PRE_ENABLED
  else if mn.unitTest = false then
    if env.lockMainOK = false then mn.activeState
    else if env.acceptableInputs mn = false then
      MasternodeState.MASTERNODE_VIN_SPENT
    else if env.burnSpent mn.pubKeyCollateralAddress = true then
      MasternodeState.MASTERNODE_VIN_SPENT
    else MasternodeState.MASTERNODE_ENABLED
  else MasternodeState.MASTERNODE_ENABLED

/-- CMasternode::Check proper: the shutdown and rate-limit early returns
    leave the record untouched; otherwise lastTimeChecked is refreshed and
    the state becomes checkNewState (the early returns inside the cascade
    correspond to the branches of checkNewState that keep the old state). -/
def CMasternode.Check (env : Env) (forceCheck : Bool) (mn : CMasternodeData) : CMasternodeData :=
  if env.shutdownRequested = true then mn
  else if forceCheck = false ∧ env.time - mn.lastTimeChecked < MASTERNODE_CHECK_SECONDS then mn
  else
    let mn1 := { mn with lastTimeChecked := env.time }
    { mn1 with activeState := CMasternode.checkNewState env mn1 }

/-- The timestamp gate of CMasternodePing::CheckAndUpdate (masternode.cpp
    lines 1050-1060): some misbehavior score when the sigTime is rejected,
    none when it passes.  Future beyond one hour and past at or beyond one
    hour are both rejected with score 1. -/
def sigTimeWindowDos (now sigTime : Int) : Option Int :=
  if sigTime > now + 60 * 60 then some 1
  else if sigTime ≤ now - 60 * 60 then some 1
  else none

/-- Tail of CMasternodePing::CheckAndUpdate (masternode.cpp lines 1107-1122):
    the record takes the ping as lastPing, a forced Check runs, and the ping
    is accepted only when the post-check state is Enabled.  The registry
    holds the re-checked record in either case; the seen-broadcast cache
    refresh of lines 1110-1114 is cache-only and outside the model. -/
def pingApplyUpdate (env : Env) (reg : Registry) (p : CMasternodePing) (nDos : Int)
    (pmn : CMasternodeData) : Bool × Int × Registry :=
  let pmn2 := CMasternode.Check env true { pmn with lastPing := some p }
  let reg2 := regSet reg (pingOutpoint p) (some pmn2)
  if IsEnabled pmn2 = false then (false, nDos, reg2)
  else (true, nDos, reg2)

/-- CMasternodePing::CheckAndUpdate (masternode.cpp lines 1048-1131),
    returning the verdict, the misbehavior score and the updated registry. -/
def CMasternodePing.CheckAndUpdate (env : Env) (reg : Registry) (p : CMasternodePing)
    (nDos : Int) (fRequireEnabled fCheckSigTimeOnly : Bool) : Bool × Int × Registry :=
  match sigTimeWindowDos env.adjustedTime p.sigTime with
  | some d => (false, d, reg)
  | none =>
    match reg (pingOutpoint p) with
    | none =>
      if fCheckSigTimeOnly = true then (true, nDos, reg) else (false, nDos, reg)
    | some pmn =>
      if fCheckSigTimeOnly = true then
        if env.pingSigOK p pmn.pubKeyMasternode = false then (false, 33, reg)
        else (true, nDos, reg)
      else if pmn.protocolVersion ≥ env.activeProtocol then
        if fRequireEnabled = true ∧ IsEnabled pmn = false then (false, nDos, reg)
        else if IsPingedWithin pmn (MASTERNODE_MIN_MNP_SECONDS - 60) p.sigTime = false then
          if env.pingSigOK p pmn.pubKeyMasternode = false then (false, 33, reg)
          else
            match env.blockIndexHeight p.blockHash with
            | none => (false, nDos, reg)
            | some idxHeight =>
              if env.chainContains p.blockHash = false ∨ env.chainHeight - idxHeight > 24 then
                (false, nDos, reg)
              else pingApplyUpdate env reg p nDos pmn
        else (false, nDos, reg)
      else (false, nDos, reg)

/-- Assignment of lastPing on the record stored at k, when present. -/
def setPingAt (reg : Registry) (k : Nat × Nat) (lp : Option CMasternodePing) : Registry :=
  match reg k with
  | none => reg
  | some cur => regSet reg k (some { cur with lastPing := lp })

/-- CMasternode::UpdateFromNewBroadcast (masternode.cpp lines 130-148) on the
    record stored at k: when the broadcast is strictly newer, the record
    takes the broadcast fields; then the embedded ping, when present, runs a
    full (not require-enabled) CheckAndUpdate against the registry holding
    the updated record, and on success (or on a null embedded ping) the
    record takes the broadcast ping as lastPing.  The seen-ping cache insert
    is outside the model. -/
def CMasternode.UpdateFromNewBroadcast (env : Env) (reg : Registry) (k : Nat × Nat)
    (mnb : CMasternodeData) : Bool × Registry :=
  match reg k with
  | none => (false, reg)
  | some pmn =>
    if mnb.sigTime > pmn.sigTime then
      let pmn1 := { pmn with
        pubKeyMasternode := mnb.pubKeyMasternode
        pubKeyCollateralAddress := mnb.pubKeyCollateralAddress
        sigTime := mnb.sigTime
        vchSig := mnb.vchSig
        protocolVersion := mnb.protocolVersion
        addrPort := mnb.addrPort
        lastTimeChecked := 0 }
      let reg1 := regSet reg k (some pmn1)
      match mnb.lastPing with
      | none => (true, setPingAt reg1 k none)
      | some p =>
        match CMasternodePing.CheckAndUpdate env reg1 p 0 false false with
        | (true, _, r2) => (true, setPingAt r2 k (some p))
        | (false, _, r2) => (true, r2)
    else (false, reg)

/-- Steps of CMasternodeBroadcast::CheckAndUpdate after the embedded-ping
    check (masternode.cpp lines 825-897): protocol floor, P2PKH script sizes,
    empty scriptSig, signature, default port, then the existing-record logic
    ending in the in-place refresh via UpdateFromNewBroadcast followed by a
    non-forced Check. -/
def CMasternodeBroadcast.afterPing (env : Env) (reg : Registry) (mnb : CMasternodeData)
    (nDos : Int) : Bool × Int × Registry :=
  if mnb.protocolVersion < env.activeProtocol then (false, nDos, reg)
  else if env.scriptSize mnb.pubKeyCollateralAddress ≠ 25 then (false, 100, reg)
  else if env.scriptSize mnb.pubKeyMasternode ≠ 25 then (false, 100, reg)
  else if mnb.vinScriptSig ≠ [] then (false, nDos, reg)
  else if env.mnbSigOK mnb = false then
    (false, if mnb.protocolVersion ≤ env.minPeerMnannounce then 0 else 100, reg)
  else if mnb.addrPort ≠ env.defaultPort then (false, nDos, reg)
  else
    match reg (mnOutpoint mnb) with
    | none => (true, nDos, reg)
    | some pmn =>
      if pmn.sigTime ≥ mnb.sigTime then (false, nDos, reg)
      else if IsEnabled pmn = false then (true, nDos, reg)
      else if pmn.pubKeyCollateralAddress = mnb.pubKeyCollateralAddress ∧
              IsBroadcastedWithin pmn MASTERNODE_MIN_MNB_SECONDS env.adjustedTime = false then
        match CMasternode.UpdateFromNewBroadcast env reg (mnOutpoint mnb) mnb with
        | (true, r2) =>
          match r2 (mnOutpoint mnb) with
          | none => (true, nDos, r2)
          | some cur => (true, nDos, regSet r2 (mnOutpoint mnb) (some (CMasternode.Check env false cur)))
        | (false, r2) => (true, nDos, r2)
      else (true, nDos, reg)

/-- CMasternodeBroadcast::CheckAndUpdate (masternode.cpp lines 812-898):
    future-sigTime gate (past is always accepted), then the embedded ping in
    sigTime-only mode (a null ping fails), then the remaining steps. -/
def CMasternodeBroadcast.CheckAndUpdate (env : Env) (reg : Registry) (mnb : CMasternodeData)
    (nDos : Int) : Bool × Int × Registry :=
  if mnb.sigTime > env.adjustedTime + 60 * 60 then (false, 1, reg)
  else
    match mnb.lastPing with
    | none => (false, nDos, reg)
    | some p =>
      match CMasternodePing.CheckAndUpdate env reg p nDos false true with
      | (false, d, r) => (false, d, r)
      | (true, d, r) => CMasternodeBroadcast.afterPing env r mnb d

/-- The record inserted by CheckInputsAndAdd: the CMasternode copy
    constructor keeps every broadcast field and resets lastTimeChecked. -/
def mnFromBroadcast (mnb : CMasternodeData) : CMasternodeData :=
  { mnb with lastTimeChecked := 0 }

/-- Modelled from the spec, section 4.2: mnodeman.Add (masternodeman.cpp is
    not in src) inserts a record and fails when the outpoint is already
    present. -/
def mnodemanAdd (reg : Registry) (mn : CMasternodeData) : Registry :=
  match reg (mnOutpoint mn) with
  | some _ => reg
  | none => regSet reg (mnOutpoint mn) (some mn)

/-- Steps of CMasternodeBroadcast::CheckInputsAndAdd after the registry
    lookup (masternode.cpp lines 922-988): the chain lock, the mempool
    acceptance of the synthetic collateral spend, the confirmation depth, the
    confirmation-block time bound, and finally the insertion of the new
    record.  The seen-cache erasures of the retry paths and the relay are
    outside the model. -/
def CMasternodeBroadcast.checkInputsRest (env : Env) (reg : Registry) (mnb : CMasternodeData)
    (nDoS : Int) : Bool × Int × Registry :=
  if env.lockMainOK = false then (false, nDoS, reg)
  else if env.acceptableInputs mnb = false then (false, env.acceptDoS, reg)
  else if env.coinDepth (mnOutpoint mnb) < MASTERNODE_MIN_CONFIRMATIONS then (false, nDoS, reg)
  else
    match env.collateralBlockHeight (mnOutpoint mnb) with
    | some bh =>
      if env.blockTimeAt (bh + MASTERNODE_MIN_CONFIRMATIONS - 1) > mnb.sigTime then
        (false, nDoS, reg)
      else (true, nDoS, mnodemanAdd reg (mnFromBroadcast mnb))
    | none => (true, nDoS, mnodemanAdd reg (mnFromBroadcast mnb))

/-- CMasternodeBroadcast::CheckInputsAndAdd (masternode.cpp lines 900-989):
    our own active masternode is accepted outright; the embedded ping runs in
    sigTime-only mode; an existing enabled record is accepted with nothing to
    do, while an existing non-enabled record is removed (at its own outpoint)
    before the collateral validation and insertion continue. -/
def CMasternodeBroadcast.CheckInputsAndAdd (env : Env) (reg : Registry) (mnb : CMasternodeData)
    (nDoS : Int) : Bool × Int × Registry :=
  if env.isLocalActive mnb = true then (true, nDoS, reg)
  else
    match mnb.lastPing with
    | none => (false, nDoS, reg)
    | some p =>
      match CMasternodePing.CheckAndUpdate env reg p nDoS false true with
      | (false, d, r) => (false, d, r)
      | (true, d, r) =>
        match r (mnOutpoint mnb) with
        | some pmn =>
          if IsEnabled pmn = true then (true, d, r)
          else CMasternodeBroadcast.checkInputsRest env (regSet r (mnOutpoint pmn) none) mnb d
        | none => CMasternodeBroadcast.checkInputsRest env r mnb d

/-- CMasternodeBroadcast::Sign (masternode.cpp lines 720-756): the sigTime is
    stamped, the scheme is picked from the network-upgrade flag; under the
    hash scheme the produced signature is verified back and a verification
    failure fails Sign; under the legacy string scheme the compact signature
    is produced and Sign returns true with no self-verification. -/
def CMasternodeBroadcast.Sign (env : Env) (mnb : CMasternodeData) (pubKey : Nat) :
    Bool × CMasternodeData :=
  let mnb1 := { mnb with sigTime := env.adjustedTime }
  if env.upgradeActive = true then
    let mnb2 := { mnb1 with nMessVersion := MessageVersion.MESS_VER_HASH }
    let strMessage := env.sigHashHex mnb2
    match env.signMessage strMessage with
    | none => (false, mnb2)
    | some sig =>
      let mnb3 := { mnb2 with vchSig := sig }
      if env.verifyMessage pubKey sig strMessage = false then (false, mnb3)
      else (true, mnb3)
  else
    let mnb2 := { mnb1 with nMessVersion := MessageVersion.MESS_VER_STRMESS }
    let strMessage := env.oldStrMessage mnb2
    match env.signCompact (env.magicHash strMessage) with
    | none => (false, mnb2)
    | some sig => (true, { mnb2 with vchSig := sig })


/-- A neutral concrete environment for the concrete evaluations below: every
    collaborator answers positively, the clock is at 10000, the default port
    is 1234, the active protocol is 1 and the chain height is 100. -/
def baseEnv : Env where
  adjustedTime := 10000
  time := 10000
  shutdownRequested := false
  activeProtocol := 1
  minPeerMnannounce := 0
  defaultPort := 1234
  chainHeight := 100
  scriptSize := fun _ => 25
  mnbSigOK := fun _ => true
  pingSigOK := fun _ _ => true
  lockMainOK := true
  acceptableInputs := fun _ => true
  acceptDoS := 0
  burnSpent := fun _ => false
  blockIndexHeight := fun _ => some 100
  chainContains := fun _ => true
  coinDepth := fun _ => 20
  collateralBlockHeight := fun _ => none
  blockTimeAt := fun _ => 0
  isLocalActive := fun _ => false
  upgradeActive := true
  sigHashHex := fun _ => 0
  oldStrMessage := fun _ => 0
  magicHash := fun n => n
  signMessage := fun _ => some [1]
  signCompact := fun _ => some [2]
  verifyMessage := fun _ _ _ => true

/-- The empty registry. -/
def regEmpty : Registry := fun _ => none

/-- A concrete ping on outpoint (1, 0) at time 10000. -/
def pingW : CMasternodePing where
  vinPrevoutHash := 1
  vinPrevoutN := 0
  blockHash := 77
  sigTime := 10000
  nMessVersion := MessageVersion.MESS_VER_HASH
  vchSig := []

/-- A record on outpoint (1, 0) whose collateral is spent, with no ping on
    file. -/
def mnVinSpent : CMasternodeData where
  vinPrevoutHash := 1
  vinPrevoutN := 0
  vinScriptSig := []
  addrPort := 1234
  pubKeyCollateralAddress := 5
  pubKeyMasternode := 6
  activeState := MasternodeState.MASTERNODE_VIN_SPENT
  sigTime := 9800
  lastPing := none
  protocolVersion := 1
  lastTimeChecked := 0
  unitTest := false
  nMessVersion := MessageVersion.MESS_VER_HASH
  vchSig := []

/-- The same record in the Expired state. -/
def mnExpired : CMasternodeData :=
  { mnVinSpent with activeState := MasternodeState.MASTERNODE_EXPIRED }

/-- Registry holding only the spent-collateral record. -/
def regVinSpent : Registry := fun k => if k = (1, 0) then some mnVinSpent else none

/-- Registry holding only the expired record. -/
def regExpired : Registry := fun k => if k = (1, 0) then some mnExpired else none

/-- Scenario S2: the embedded ping of the older announcement, sigTime 999. -/
def pingS2 : CMasternodePing where
  vinPrevoutHash := 2
  vinPrevoutN := 0
  blockHash := 77
  sigTime := 999
  nMessVersion := MessageVersion.MESS_VER_HASH
  vchSig := []

/-- Scenario S2: the incoming announcement A2 on outpoint (2, 0) with
    sigTime 999. -/
def mnbS2 : CMasternodeData where
  vinPrevoutHash := 2
  vinPrevoutN := 0
  vinScriptSig := []
  addrPort := 1234
  pubKeyCollateralAddress := 5
  pubKeyMasternode := 6
  activeState := MasternodeState.MASTERNODE_ENABLED
  sigTime := 999
  lastPing := some pingS2
  protocolVersion := 1
  lastTimeChecked := 0
  unitTest := false
  nMessVersion := MessageVersion.MESS_VER_HASH
  vchSig := []

/-- Scenario S2: the existing record admitted from A1 with sigTime 1000. -/
def pmnS2 : CMasternodeData := { mnbS2 with sigTime := 1000, lastPing := none }

/-- Scenario S2: registry holding the existing record. -/
def regS2 : Registry := fun k => if k = (2, 0) then some pmnS2 else none

/-- Scenario S2: clock at 1000. -/
def envS2 : Env := { baseEnv with adjustedTime := 1000, time := 1000 }

/-- An announcement on outpoint (1, 0), aimed at the spent-collateral
    record. -/
def mnbC6 : CMasternodeData := { mnbS2 with vinPrevoutHash := 1 }

/-- Legacy-scheme signing environment whose verifier rejects everything and
    whose compact signer returns the signature [7]. -/
def envC8 : Env :=
  { baseEnv with upgradeActive := false,
                 verifyMessage := fun _ _ _ => false,
                 signCompact := fun _ => some [7] }

/-- The embedded ping of the replacement announcement on outpoint (3, 0). -/
def pingC9 : CMasternodePing where
  vinPrevoutHash := 3
  vinPrevoutN := 0
  blockHash := 77
  sigTime := 10000
  nMessVersion := MessageVersion.MESS_VER_HASH
  vchSig := []

/-- The replacement announcement on outpoint (3, 0); its lastTimeChecked 7 is
    reset to 0 when the new record is built. -/
def mnbC9 : CMasternodeData where
  vinPrevoutHash := 3
  vinPrevoutN := 0
  vinScriptSig := []
  addrPort := 1234
  pubKeyCollateralAddress := 5
  pubKeyMasternode := 6
  activeState := MasternodeState.MASTERNODE_ENABLED
  sigTime := 10000
  lastPing := some pingC9
  protocolVersion := 1
  lastTimeChecked := 7
  unitTest := false
  nMessVersion := MessageVersion.MESS_VER_HASH
  vchSig := []

/-- The stale non-enabled record on outpoint (3, 0) that gets replaced. -/
def pmnC9 : CMasternodeData :=
  { mnbC9 with activeState := MasternodeState.MASTERNODE_EXPIRED, sigTime := 9000,
               lastPing := none, lastTimeChecked := 0 }

/-- Registry holding the stale record on outpoint (3, 0). -/
def regC9 : Registry := fun k => if k = (3, 0) then some pmnC9 else none


theorem collateralScan_step (fuel : Nat) (i prev : Int)
    (h : prev ≠ GetMasternodeNodeCollateral i) :
    collateralScan (fuel + 1) i prev
      = (i, GetMasternodeNodeCollateral i)
          :: collateralScan fuel (i + 1) (GetMasternodeNodeCollateral i) := by
  simp [collateralScan, h]

theorem collateralScan_const (a : Nat) : ∀ (fuel : Nat) (i prev : Int),
    (∀ j : Int, i ≤ j → j < i + (a : Int) → GetMasternodeNodeCollateral j = prev) →
    collateralScan (a + fuel) i prev = collateralScan fuel (i + (a : Int)) prev := by
  induction a with
  | zero =>
    intro fuel i prev _
    simp
  | succ a ih =>
    intro fuel i prev hconst
    have hi : GetMasternodeNodeCollateral i = prev := by
      refine hconst i le_rfl ?_
      have : (0 : Int) < ((a : Int) + 1) := by positivity
      push_cast
      omega
    have harr : a + 1 + fuel = (a + fuel) + 1 := by omega
    rw [harr]
    have hstep : collateralScan ((a + fuel) + 1) i prev
        = collateralScan (a + fuel) (i + 1) prev := by
      simp [collateralScan, hi]
    rw [hstep]
    have hrec := ih fuel (i + 1) prev (by
      intro j h1 h2
      refine hconst j (by omega) (by push_cast at h2 ⊢; omega))
    rw [hrec]
    have : i + 1 + (a : Int) = i + ((a : Nat) + 1 : Nat) := by push_cast; ring
    rw [this]

theorem collateral_band0 : ∀ j : Int, 0 ≤ j → j < 2 → GetMasternodeNodeCollateral j = 0 := by
  intro j h1 h2
  unfold GetMasternodeNodeCollateral
  repeat rw [if_neg (by omega)]
  simp

theorem collateral_band1 : ∀ j : Int, 2 ≤ j → j < 1000000 →
    GetMasternodeNodeCollateral j = 100000 * COIN := by
  intro j h1 h2
  unfold GetMasternodeNodeCollateral
  repeat rw [if_neg (by omega)]
  rw [if_pos (by omega)]

theorem collateral_band2 : ∀ j : Int, 1000000 ≤ j → j < 2000000 →
    GetMasternodeNodeCollateral j = 110000 * COIN := by
  intro j h1 h2
  unfold GetMasternodeNodeCollateral
  repeat rw [if_neg (by omega)]
  rw [if_pos (by omega)]

theorem collateral_band3 : ∀ j : Int, 2000000 ≤ j → j < 3000000 →
    GetMasternodeNodeCollateral j = 121000 * COIN := by
  intro j h1 h2
  unfold GetMasternodeNodeCollateral
  repeat rw [if_neg (by omega)]
  rw [if_pos (by omega)]

theorem collateral_band4 : ∀ j : Int, 3000000 ≤ j → j < 4000000 →
    GetMasternodeNodeCollateral j = 133100 * COIN := by
  intro j h1 h2
  unfold GetMasternodeNodeCollateral
  repeat rw [if_neg (by omega)]
  rw [if_pos (by omega)]

theorem collateral_band5 : ∀ j : Int, 4000000 ≤ j → j < 5000000 →
    GetMasternodeNodeCollateral j = 146410 * COIN := by
  intro j h1 h2
  unfold GetMasternodeNodeCollateral
  repeat rw [if_neg (by omega)]
  rw [if_pos (by omega)]

theorem collateral_band6 : ∀ j : Int, 5000000 ≤ j → j < 6000000 →
    GetMasternodeNodeCollateral j = 161051 * COIN := by
  intro j h1 h2
  unfold GetMasternodeNodeCollateral
  repeat rw [if_neg (by omega)]
  rw [if_pos (by omega)]

theorem collateral_band7 : ∀ j : Int, 6000000 ≤ j → j < 7000000 →
    GetMasternodeNodeCollateral j = 177156 * COIN := by
  intro j h1 h2
  unfold GetMasternodeNodeCollateral
  repeat rw [if_neg (by omega)]
  rw [if_pos (by omega)]

theorem collateral_band8 : ∀ j : Int, 7000000 ≤ j → j < 8000000 →
    GetMasternodeNodeCollateral j = 194872 * COIN := by
  intro j h1 h2
  unfold GetMasternodeNodeCollateral
  repeat rw [if_neg (by omega)]
  rw [if_pos (by omega)]

theorem collateral_band9 : ∀ j : Int, 8000000 ≤ j → j < 9000000 →
    GetMasternodeNodeCollateral j = 214359 * COIN := by
  intro j h1 h2
  unfold GetMasternodeNodeCollateral
  repeat rw [if_neg (by omega)]
  rw [if_pos (by omega)]

theorem collateral_band10 : ∀ j : Int, 9000000 ≤ j → j < 10000000 →
    GetMasternodeNodeCollateral j = 235795 * COIN := by
  intro j h1 h2
  unfold GetMasternodeNodeCollateral
  repeat rw [if_neg (by omega)]
  rw [if_pos (by omega)]

theorem vecCollaterals_eq : vecCollaterals = collateralTransitions := by
  have c0 : collateralScan 9999999 0 (-1) = (0, 0) :: collateralScan 9999998 1 0 := by
    rw [show (9999999 : Nat) = 9999998 + 1 by norm_num,
        collateralScan_step 9999998 0 (-1) (by decide),
        show GetMasternodeNodeCollateral 0 = 0 from by decide]
    norm_num
  have k0 : collateralScan 9999998 1 0 = collateralScan 9999997 2 0 := by
    have h := collateralScan_const 1 9999997 1 0 (by
      intro j h1 h2
      push_cast at h2
      exact collateral_band0 j (by omega) (by omega))
    norm_num at h
    exact h
  have c1 : collateralScan 9999997 2 0
      = (2, 100000 * COIN) :: collateralScan 9999996 3 (100000 * COIN) := by
    rw [show (9999997 : Nat) = 9999996 + 1 by norm_num,
        collateralScan_step 9999996 2 0 (by decide),
        show GetMasternodeNodeCollateral 2 = 100000 * COIN from by decide]
    norm_num
  have k1 : collateralScan 9999996 3 (100000 * COIN)
      = collateralScan 8999999 1000000 (100000 * COIN) := by
    have h := collateralScan_const 999997 8999999 3 (100000 * COIN) (by
      intro j h1 h2
      push_cast at h2
      exact collateral_band1 j (by omega) (by omega))
    norm_num at h
    exact h
  have c2 : collateralScan 8999999 1000000 (100000 * COIN)
      = (1000000, 110000 * COIN) :: collateralScan 8999998 1000001 (110000 * COIN) := by
    rw [show (8999999 : Nat) = 8999998 + 1 by norm_num,
        collateralScan_step 8999998 1000000 (100000 * COIN) (by decide),
        show GetMasternodeNodeCollateral 1000000 = 110000 * COIN from by decide]
    norm_num
  have k2 : collateralScan 8999998 1000001 (110000 * COIN)
      = collateralScan 7999999 2000000 (110000 * COIN) := by
    have h := collateralScan_const 999999 7999999 1000001 (110000 * COIN) (by
      intro j h1 h2
      push_cast at h2
      exact collateral_band2 j (by omega) (by omega))
    norm_num at h
    exact h
  have c3 : collateralScan 7999999 2000000 (110000 * COIN)
      = (2000000, 121000 * COIN) :: collateralScan 7999998 2000001 (121000 * COIN) := by
    rw [show (7999999 : Nat) = 7999998 + 1 by norm_num,
        collateralScan_step 7999998 2000000 (110000 * COIN) (by decide),
        show GetMasternodeNodeCollateral 2000000 = 121000 * COIN from by decide]
    norm_num
  have k3 : collateralScan 7999998 2000001 (121000 * COIN)
      = collateralScan 6999999 3000000 (121000 * COIN) := by
    have h := collateralScan_const 999999 6999999 2000001 (121000 * COIN) (by
      intro j h1 h2
      push_cast at h2
      exact collateral_band3 j (by omega) (by omega))
    norm_num at h
    exact h
  have c4 : collateralScan 6999999 3000000 (121000 * COIN)
      = (3000000, 133100 * COIN) :: collateralScan 6999998 3000001 (133100 * COIN) := by
    rw [show (6999999 : Nat) = 6999998 + 1 by norm_num,
        collateralScan_step 6999998 3000000 (121000 * COIN) (by decide),
        show GetMasternodeNodeCollateral 3000000 = 133100 * COIN from by decide]
    norm_num
  have k4 : collateralScan 6999998 3000001 (133100 * COIN)
      = collateralScan 5999999 4000000 (133100 * COIN) := by
    have h := collateralScan_const 999999 5999999 3000001 (133100 * COIN) (by
      intro j h1 h2
      push_cast at h2
      exact collateral_band4 j (by omega) (by omega))
    norm_num at h
    exact h
  have c5 : collateralScan 5999999 4000000 (133100 * COIN)
      = (4000000, 146410 * COIN) :: collateralScan 5999998 4000001 (146410 * COIN) := by
    rw [show (5999999 : Nat) = 5999998 + 1 by norm_num,
        collateralScan_step 5999998 4000000 (133100 * COIN) (by decide),
        show GetMasternodeNodeCollateral 4000000 = 146410 * COIN from by decide]
    norm_num
  have k5 : collateralScan 5999998 4000001 (146410 * COIN)
      = collateralScan 4999999 5000000 (146410 * COIN) := by
    have h := collateralScan_const 999999 4999999 4000001 (146410 * COIN) (by
      intro j h1 h2
      push_cast at h2
      exact collateral_band5 j (by omega) (by omega))
    norm_num at h
    exact h
  have c6 : collateralScan 4999999 5000000 (146410 * COIN)
      = (5000000, 161051 * COIN) :: collateralScan 4999998 5000001 (161051 * COIN) := by
    rw [show (4999999 : Nat) = 4999998 + 1 by norm_num,
        collateralScan_step 4999998 5000000 (146410 * COIN) (by decide),
        show GetMasternodeNodeCollateral 5000000 = 161051 * COIN from by decide]
    norm_num
  have k6 : collateralScan 4999998 5000001 (161051 * COIN)
      = collateralScan 3999999 6000000 (161051 * COIN) := by
    have h := collateralScan_const 999999 3999999 5000001 (161051 * COIN) (by
      intro j h1 h2
      push_cast at h2
      exact collateral_band6 j (by omega) (by omega))
    norm_num at h
    exact h
  have c7 : collateralScan 3999999 6000000 (161051 * COIN)
      = (6000000, 177156 * COIN) :: collateralScan 3999998 6000001 (177156 * COIN) := by
    rw [show (3999999 : Nat) = 3999998 + 1 by norm_num,
        collateralScan_step 3999998 6000000 (161051 * COIN) (by decide),
        show GetMasternodeNodeCollateral 6000000 = 177156 * COIN from by decide]
    norm_num
  have k7 : collateralScan 3999998 6000001 (177156 * COIN)
      = collateralScan 2999999 7000000 (177156 * COIN) := by
    have h := collateralScan_const 999999 2999999 6000001 (177156 * COIN) (by
      intro j h1 h2
      push_cast at h2
      exact collateral_band7 j (by omega) (by omega))
    norm_num at h
    exact h
  have c8 : collateralScan 2999999 7000000 (177156 * COIN)
      = (7000000, 194872 * COIN) :: collateralScan 2999998 7000001 (194872 * COIN) := by
    rw [show (2999999 : Nat) = 2999998 + 1 by norm_num,
        collateralScan_step 2999998 7000000 (177156 * COIN) (by decide),
        show GetMasternodeNodeCollateral 7000000 = 194872 * COIN from by decide]
    norm_num
  have k8 : collateralScan 2999998 7000001 (194872 * COIN)
      = collateralScan 1999999 8000000 (194872 * COIN) := by
    have h := collateralScan_const 999999 1999999 7000001 (194872 * COIN) (by
      intro j h1 h2
      push_cast at h2
      exact collateral_band8 j (by omega) (by omega))
    norm_num at h
    exact h
  have c9 : collateralScan 1999999 8000000 (194872 * COIN)
      = (8000000, 214359 * COIN) :: collateralScan 1999998 8000001 (214359 * COIN) := by
    rw [show (1999999 : Nat) = 1999998 + 1 by norm_num,
        collateralScan_step 1999998 8000000 (194872 * COIN) (by decide),
        show GetMasternodeNodeCollateral 8000000 = 214359 * COIN from by decide]
    norm_num
  have k9 : collateralScan 1999998 8000001 (214359 * COIN)
      = collateralScan 999999 9000000 (214359 * COIN) := by
    have h := collateralScan_const 999999 999999 8000001 (214359 * COIN) (by
      intro j h1 h2
      push_cast at h2
      exact collateral_band9 j (by omega) (by omega))
    norm_num at h
    exact h
  have c10 : collateralScan 999999 9000000 (214359 * COIN)
      = (9000000, 235795 * COIN) :: collateralScan 999998 9000001 (235795 * COIN) := by
    rw [show (999999 : Nat) = 999998 + 1 by norm_num,
        collateralScan_step 999998 9000000 (214359 * COIN) (by decide),
        show GetMasternodeNodeCollateral 9000000 = 235795 * COIN from by decide]
    norm_num
  have k10 : collateralScan 999998 9000001 (235795 * COIN) = [] := by
    have h := collateralScan_const 999998 0 9000001 (235795 * COIN) (by
      intro j h1 h2
      push_cast at h2
      exact collateral_band10 j (by omega) (by omega))
    norm_num at h
    rw [h]
    rfl
  show collateralScan 9999999 0 (-1) = collateralTransitions
  rw [c0, k0, c1, k1, c2, k2, c3, k3, c4, k4, c5, k5, c6, k6, c7, k7, c8, k8, c9, k9, c10, k10]
  rfl

/-- Claim C1: GetBlockValue returns zero when the supply is at or above the
    cap; but when the supply is below the cap and the subsidy would cross it,
    the code returns nMoneySupply + nSubsidy - maxMoneyOut, not the claimed
    maxMoneyOut - nMoneySupply.  At maxMoneyOut = 10^16, supply one coin
    (10^8) below the cap, height 2 (subsidy 100 coins), the code yields
    9900000000 while the claim demands 100000000. -/
theorem C1_blockValue_cap_overshoot :
    GetBlockValue 10000000000000000 9999999900000000 2 = 9900000000 ∧
    (10000000000000000 - 9999999900000000 : Int) = 100000000 ∧
    ((9900000000 : Int) ≠ 100000000) ∧
    GetBlockValue 10000000000000000 10000000000000000 2 = 0 := by
  refine ⟨by decide, by decide, by decide, by decide⟩

/-- Claim C2, counterexample: the claim asserts collateral(18999999) is
    611591 coins, but the cascade gives that amount only to heights strictly
    above 18999999, so the value at 18999999 is 555992 coins. -/
theorem C2_collateral_boundary_counterexample :
    ¬ (GetMasternodeNodeCollateral 18999999 = 611591 * COIN) := by decide

/-- Claim C2, amended: the published boundary values at 999999 and 1000000
    hold, the one-time 611591-coin bump covers exactly the heights 19000000
    through 19999999 (not 18000000 through 18999999), and the descending
    staircase starts with 581011 coins at height 20000000. -/
theorem C2_collateral_boundaries_amended :
    GetMasternodeNodeCollateral 999999 = 100000 * COIN ∧
    GetMasternodeNodeCollateral 1000000 = 110000 * COIN ∧
    GetMasternodeNodeCollateral 19999999 = 611591 * COIN ∧
    GetMasternodeNodeCollateral 20000000 = 581011 * COIN ∧
    ∀ h : Int, GetMasternodeNodeCollateral h = 611591 * COIN ↔ (19000000 ≤ h ∧ h ≤ 19999999) := by
  refine ⟨by decide, by decide, by decide, by decide, ?_⟩
  intro h
  unfold GetMasternodeNodeCollateral COIN
  omega

/-- Witness for C2: the amended bump interval, instantiated at 19500000. -/
theorem C2_collateral_boundaries_witness :
    GetMasternodeNodeCollateral 19500000 = 611591 * COIN :=
  (C2_collateral_boundaries_amended.2.2.2.2 19500000).mpr (by decide)

theorem C5_branch (h t amt : Int) (hlt : h < t) (ht9 : t ≤ 9000000)
    (hamt : amt ≠ -1)
    (hdiff : GetMasternodeNodeCollateral t ≠ GetMasternodeNodeCollateral h) :
    ((t - h, amt) ≠ ((-1 : Int), (-1 : Int)) →
        0 < t - h ∧
        GetMasternodeNodeCollateral (h + (t - h)) ≠ GetMasternodeNodeCollateral h) ∧
    (((t - h, amt) = ((-1 : Int), (-1 : Int))) ↔ 9000000 ≤ h) := by
  constructor
  · intro _
    constructor
    · omega
    · have e : h + (t - h) = t := by ring
      rw [e]
      exact hdiff
  · rw [Prod.mk.injEq]
    constructor
    · intro he
      exact absurd he.2 hamt
    · intro h9
      exfalso
      omega

/-- Claim C5, counterexample: at height 9000000 the materialized list has no
    later transition, so the sentinel (-1, -1) is returned, yet the collateral
    does change later (at height 10000000 it moves from 235795 to 259374
    coins), because the startup scan only visits heights 0 through 9999998. -/
theorem C5_next_change_counterexample :
    GetNextMasternodeCollateral 9000000 = ((-1 : Int), (-1 : Int)) ∧
    GetMasternodeNodeCollateral 10000000 ≠ GetMasternodeNodeCollateral 9000000 := by
  constructor
  · unfold GetNextMasternodeCollateral
    rw [vecCollaterals_eq]
    decide
  · decide

/-- Claim C5, amended: for every height h at least 0, a non-sentinel result of
    GetNextMasternodeCollateral has a strictly positive blocks-until component
    and the collateral at h plus that component differs from the collateral at
    h; the sentinel (-1, -1) is returned exactly when no transition point of
    the scanned range (heights 0 through 9999998, whose last transition is at
    9000000) lies strictly above h, even though later transitions exist. -/
theorem C5_next_change_amended : ∀ h : Int, 0 ≤ h → ∀ b v : Int,
    GetNextMasternodeCollateral h = (b, v) →
    ((b, v) ≠ ((-1 : Int), (-1 : Int)) →
        0 < b ∧ GetMasternodeNodeCollateral (h + b) ≠ GetMasternodeNodeCollateral h) ∧
    ((b, v) = ((-1 : Int), (-1 : Int)) ↔ 9000000 ≤ h) := by
  intro h h0 b v heq
  unfold GetNextMasternodeCollateral at heq
  rw [vecCollaterals_eq] at heq
  simp only [collateralTransitions, findNextCollateral] at heq
  rw [if_neg (show ¬ (0 : Int) > h by omega)] at heq
  by_cases hc0 : (2 : Int) > h
  · rw [if_pos hc0] at heq
    injection heq with hb hv
    subst hb
    subst hv
    exact C5_branch h 2 (100000 * COIN) (by omega) (by omega) (by decide)
      (by rw [show GetMasternodeNodeCollateral 2 = 100000 * COIN from by decide,
              collateral_band0 h (by omega) (by omega)]; decide)
  · rw [if_neg hc0] at heq
    by_cases hc1 : (1000000 : Int) > h
    · rw [if_pos hc1] at heq
      injection heq with hb hv
      subst hb
      subst hv
      exact C5_branch h 1000000 (110000 * COIN) (by omega) (by omega) (by decide)
        (by rw [show GetMasternodeNodeCollateral 1000000 = 110000 * COIN from by decide,
                collateral_band1 h (by omega) (by omega)]; decide)
    · rw [if_neg hc1] at heq
      by_cases hc2 : (2000000 : Int) > h
      · rw [if_pos hc2] at heq
        injection heq with hb hv
        subst hb
        subst hv
        exact C5_branch h 2000000 (121000 * COIN) (by omega) (by omega) (by decide)
          (by rw [show GetMasternodeNodeCollateral 2000000 = 121000 * COIN from by decide,
                  collateral_band2 h (by omega) (by omega)]; decide)
      · rw [if_neg hc2] at heq
        by_cases hc3 : (3000000 : Int) > h
        · rw [if_pos hc3] at heq
          injection heq with hb hv
          subst hb
          subst hv
          exact C5_branch h 3000000 (133100 * COIN) (by omega) (by omega) (by decide)
            (by rw [show GetMasternodeNodeCollateral 3000000 = 133100 * COIN from by decide,
                    collateral_band3 h (by omega) (by omega)]; decide)
        · rw [if_neg hc3] at heq
          by_cases hc4 : (4000000 : Int) > h
          · rw [if_pos hc4] at heq
            injection heq with hb hv
            subst hb
            subst hv
            exact C5_branch h 4000000 (146410 * COIN) (by omega) (by omega) (by decide)
              (by rw [show GetMasternodeNodeCollateral 4000000 = 146410 * COIN from by decide,
                      collateral_band4 h (by omega) (by omega)]; decide)
          · rw [if_neg hc4] at heq
            by_cases hc5 : (5000000 : Int) > h
            · rw [if_pos hc5] at heq
              injection heq with hb hv
              subst hb
              subst hv
              exact C5_branch h 5000000 (161051 * COIN) (by omega) (by omega) (by decide)
                (by rw [show GetMasternodeNodeCollateral 5000000 = 161051 * COIN from by decide,
                        collateral_band5 h (by omega) (by omega)]; decide)
            · rw [if_neg hc5] at heq
              by_cases hc6 : (6000000 : Int) > h
              · rw [if_pos hc6] at heq
                injection heq with hb hv
                subst hb
                subst hv
                exact C5_branch h 6000000 (177156 * COIN) (by omega) (by omega) (by decide)
                  (by rw [show GetMasternodeNodeCollateral 6000000 = 177156 * COIN from by decide,
                          collateral_band6 h (by omega) (by omega)]; decide)
              · rw [if_neg hc6] at heq
                by_cases hc7 : (7000000 : Int) > h
                · rw [if_pos hc7] at heq
                  injection heq with hb hv
                  subst hb
                  subst hv
                  exact C5_branch h 7000000 (194872 * COIN) (by omega) (by omega) (by decide)
                    (by rw [show GetMasternodeNodeCollateral 7000000 = 194872 * COIN from by decide,
                            collateral_band7 h (by omega) (by omega)]; decide)
                · rw [if_neg hc7] at heq
                  by_cases hc8 : (8000000 : Int) > h
                  · rw [if_pos hc8] at heq
                    injection heq with hb hv
                    subst hb
                    subst hv
                    exact C5_branch h 8000000 (214359 * COIN) (by omega) (by omega) (by decide)
                      (by rw [show GetMasternodeNodeCollateral 8000000 = 214359 * COIN from by decide,
                              collateral_band8 h (by omega) (by omega)]; decide)
                  · rw [if_neg hc8] at heq
                    by_cases hc9 : (9000000 : Int) > h
                    · rw [if_pos hc9] at heq
                      injection heq with hb hv
                      subst hb
                      subst hv
                      exact C5_branch h 9000000 (235795 * COIN) (by omega) (by omega) (by decide)
                        (by rw [show GetMasternodeNodeCollateral 9000000 = 235795 * COIN from by decide,
                                collateral_band9 h (by omega) (by omega)]; decide)
                    · rw [if_neg hc9] at heq
                      injection heq with hb hv
                      subst hb
                      subst hv
                      refine ⟨fun hne => absurd rfl hne, ?_⟩
                      constructor
                      · intro _
                        omega
                      · intro _
                        rfl

/-- Witness for C5: the amended statement instantiated at height 0, where the
    next transition is 2 blocks away. -/
theorem C5_next_change_witness :
    0 < (2 : Int) ∧ GetMasternodeNodeCollateral (0 + 2) ≠ GetMasternodeNodeCollateral 0 := by
  have hnext : GetNextMasternodeCollateral 0 = ((2 : Int), 100000 * COIN) := by
    unfold GetNextMasternodeCollateral
    rw [vecCollaterals_eq]
    decide
  exact (C5_next_change_amended 0 (by decide) 2 (100000 * COIN) hnext).1 (by decide)

theorem natAbs_diff_if (a b : Nat) :
    (if b > a then b - a else a - b) = ((a : Int) - (b : Int)).natAbs := by
  split_ifs <;> omega

/-- Claim C3: CalculateScore equals the spec score, the 256-bit absolute
    difference of H(B) and H(B followed by the wrapping sum of the outpoint
    tx hash and output index), where B is the block hash the repository
    resolves for the height, and is the zero sentinel whenever that hash is
    unavailable, in particular when there is no chain tip (the empty
    chain). -/
theorem C3_calculateScore_spec (Hser : List Nat → Nat) (chain : List (Int × Nat))
    (mod : Int) (prevoutHash prevoutN : Nat) (nBlockHeight : Int) :
    CalculateScore Hser chain mod prevoutHash prevoutN nBlockHeight =
      match GetBlockHash chain nBlockHeight with
      | none => 0
      | some B => specScore Hser B ((prevoutHash + prevoutN) % 2 ^ 256) := by
  unfold CalculateScore specScore
  cases chain with
  | nil => simp [GetBlockHash]
  | cons hd tl =>
    rw [if_neg (by simp)]
    cases hB : GetBlockHash (hd :: tl) nBlockHeight with
    | none => simp
    | some B => simp only; exact natAbs_diff_if (Hser [B]) (Hser [B, (prevoutHash + prevoutN) % 2 ^ 256])

theorem ping_sigTimeOnly_ok (env : Env) (reg : Registry) (p : CMasternodePing)
    (nDos : Int) (fre : Bool)
    (hw : sigTimeWindowDos env.adjustedTime p.sigTime = none)
    (hsig : ∀ r, reg (pingOutpoint p) = some r → env.pingSigOK p r.pubKeyMasternode = true) :
    CMasternodePing.CheckAndUpdate env reg p nDos fre true = (true, nDos, reg) := by
  unfold CMasternodePing.CheckAndUpdate
  rw [hw]
  cases hfind : reg (pingOutpoint p) with
  | none => simp
  | some r =>
    have hs := hsig r hfind
    simp [hs]

theorem ping_sigTimeOnly_snd (env : Env) (reg : Registry) (p : CMasternodePing)
    (nDos : Int) (fre : Bool) :
    (CMasternodePing.CheckAndUpdate env reg p nDos fre true).2.2 = reg := by
  unfold CMasternodePing.CheckAndUpdate
  cases hw : sigTimeWindowDos env.adjustedTime p.sigTime with
  | some d => rfl
  | none =>
    cases hfind : reg (pingOutpoint p) with
    | none => rfl
    | some r =>
      by_cases hs : env.pingSigOK p r.pubKeyMasternode = false
      · simp [hs]
      · simp [hs]

theorem check_state_vinSpent (env : Env) (force : Bool) (mn : CMasternodeData)
    (h : mn.activeState = MasternodeState.MASTERNODE_VIN_SPENT) :
    (CMasternode.Check env force mn).activeState = MasternodeState.MASTERNODE_VIN_SPENT := by
  simp only [CMasternode.Check]
  split_ifs with h1 h2
  · exact h
  · exact h
  · simp only [CMasternode.checkNewState]
    rw [if_pos (by simpa using h)]
    simpa using h

theorem check_lastPing_preserved (env : Env) (force : Bool) (mn : CMasternodeData) :
    (CMasternode.Check env force mn).lastPing = mn.lastPing := by
  simp only [CMasternode.Check]
  split_ifs <;> rfl

/-- Claim C4, counterexample: scenario S2 (existing record with sigTime 1000,
    incoming announcement with sigTime 999) is rejected with the misbehavior
    score left at 0, not the claimed 100; the existing record is unchanged. -/
theorem C4_older_announcement_counterexample :
    (CMasternodeBroadcast.CheckAndUpdate envS2 regS2 mnbS2 0).1 = false ∧
    (CMasternodeBroadcast.CheckAndUpdate envS2 regS2 mnbS2 0).2.1 = 0 ∧
    ((0 : Int) ≠ 100) ∧
    (CMasternodeBroadcast.CheckAndUpdate envS2 regS2 mnbS2 0).2.2 (2, 0) = some pmnS2 := by
  refine ⟨by decide, by decide, by decide, by decide⟩

/-- Claim C4, amended: when a record already exists for the outpoint and the
    incoming sigTime is at most the existing sigTime, admission rejects the
    announcement, but assigns no misbehavior score (the score argument is
    returned unchanged, in particular 0, not 100); the registry, and so the
    existing record, is left unchanged. -/
theorem C4_older_announcement_amended (env : Env) (reg : Registry) (mnb : CMasternodeData)
    (nDos : Int) (pmn : CMasternodeData) (p : CMasternodePing)
    (h1 : ¬ mnb.sigTime > env.adjustedTime + 60 * 60)
    (hp : mnb.lastPing = some p)
    (hw : sigTimeWindowDos env.adjustedTime p.sigTime = none)
    (hsig : ∀ r, reg (pingOutpoint p) = some r → env.pingSigOK p r.pubKeyMasternode = true)
    (h3 : ¬ mnb.protocolVersion < env.activeProtocol)
    (h4 : env.scriptSize mnb.pubKeyCollateralAddress = 25)
    (h5 : env.scriptSize mnb.pubKeyMasternode = 25)
    (h6 : mnb.vinScriptSig = [])
    (h7 : env.mnbSigOK mnb = true)
    (h8 : mnb.addrPort = env.defaultPort)
    (hfind : reg (mnOutpoint mnb) = some pmn)
    (hold : pmn.sigTime ≥ mnb.sigTime) :
    CMasternodeBroadcast.CheckAndUpdate env reg mnb nDos = (false, nDos, reg) := by
  unfold CMasternodeBroadcast.CheckAndUpdate
  rw [if_neg h1]
  simp only [hp]
  rw [ping_sigTimeOnly_ok env reg p nDos false hw hsig]
  show CMasternodeBroadcast.afterPing env reg mnb nDos = (false, nDos, reg)
  unfold CMasternodeBroadcast.afterPing
  rw [if_neg h3, if_neg (by simp [h4]), if_neg (by simp [h5]), if_neg (by simp [h6]),
      if_neg (by simp [h7]), if_neg (by simp [h8]), hfind]
  show (if pmn.sigTime ≥ mnb.sigTime then _ else _) = _
  rw [if_pos hold]

/-- Witness for C4: the amended statement at the S2 scenario data. -/
theorem C4_older_announcement_witness :
    CMasternodeBroadcast.CheckAndUpdate envS2 regS2 mnbS2 0 = (false, 0, regS2) :=
  C4_older_announcement_amended envS2 regS2 mnbS2 0 pmnS2 pingS2 (by decide) (by decide)
    (by decide) (fun r _ => rfl) (by decide) (by decide) (by decide) (by decide) (by decide)
    (by decide) (by decide) (by decide)

theorem reg_lookup_state (reg : Registry) (k : Nat × Nat) (pmn : CMasternodeData)
    (hfind : reg k = some pmn)
    (hstate : pmn.activeState = MasternodeState.MASTERNODE_VIN_SPENT) :
    ∀ r2, reg k = some r2 → r2.activeState = MasternodeState.MASTERNODE_VIN_SPENT := by
  intro r2 hr2
  rw [hfind] at hr2
  injection hr2 with h
  rw [← h]
  exact hstate

/-- Claim C6, counterexample: a full-mode heartbeat (require-enabled off, as
    used by UpdateFromNewBroadcast) that passes the signature and block
    checks mutates the VinSpent record: its lastPing field changes from none
    to the ping (and lastTimeChecked is refreshed) even though the state
    stays VinSpent and the ping is reported as failed. -/
theorem C6_vinSpent_counterexample :
    mnVinSpent.activeState = MasternodeState.MASTERNODE_VIN_SPENT ∧
    mnVinSpent.lastPing = none ∧
    (CMasternodePing.CheckAndUpdate baseEnv regVinSpent pingW 0 false false).1 = false ∧
    (CMasternodePing.CheckAndUpdate baseEnv regVinSpent pingW 0 false false).2.2 (1, 0)
      = some { mnVinSpent with
          lastPing := some pingW
          lastTimeChecked := 10000 } := by
  refine ⟨by decide, by decide, by decide, by decide⟩

/-- Claim C6, amended: the VinSpent state itself is terminal: Check never
    changes it, a full-mode heartbeat is never accepted against a VinSpent
    record and never changes its state, and an announcement for the same
    outpoint leaves the registry untouched; however a full-mode heartbeat may
    still mutate the non-state fields (lastPing, lastTimeChecked) of the
    VinSpent record before failing. -/
theorem C6_vinSpent_amended :
    (∀ (env : Env) (force : Bool) (mn : CMasternodeData),
       mn.activeState = MasternodeState.MASTERNODE_VIN_SPENT →
       (CMasternode.Check env force mn).activeState = MasternodeState.MASTERNODE_VIN_SPENT) ∧
    (∀ (env : Env) (reg : Registry) (p : CMasternodePing) (d : Int) (fre : Bool)
       (pmn : CMasternodeData),
       reg (pingOutpoint p) = some pmn →
       pmn.activeState = MasternodeState.MASTERNODE_VIN_SPENT →
       (CMasternodePing.CheckAndUpdate env reg p d fre false).1 = false ∧
       ∀ r2, (CMasternodePing.CheckAndUpdate env reg p d fre false).2.2 (pingOutpoint p) = some r2 →
         r2.activeState = MasternodeState.MASTERNODE_VIN_SPENT) ∧
    (∀ (env : Env) (reg : Registry) (mnb : CMasternodeData) (d : Int) (pmn : CMasternodeData),
       reg (mnOutpoint mnb) = some pmn →
       pmn.activeState = MasternodeState.MASTERNODE_VIN_SPENT →
       (CMasternodeBroadcast.CheckAndUpdate env reg mnb d).2.2 = reg) := by
  refine ⟨check_state_vinSpent, ?_, ?_⟩
  · intro env reg p d fre pmn hfind hstate
    unfold CMasternodePing.CheckAndUpdate
    cases hw : sigTimeWindowDos env.adjustedTime p.sigTime with
    | some d2 => exact ⟨rfl, fun r2 hr2 => reg_lookup_state reg _ pmn hfind hstate r2 hr2⟩
    | none =>
      simp only [hfind]
      rw [if_neg (by simp : ¬((false : Bool) = true))]
      by_cases hproto : pmn.protocolVersion ≥ env.activeProtocol
      · rw [if_pos hproto]
        by_cases hq : fre = true ∧ IsEnabled pmn = false
        · rw [if_pos hq]
          exact ⟨rfl, fun r2 hr2 => reg_lookup_state reg _ pmn hfind hstate r2 hr2⟩
        · rw [if_neg hq]
          by_cases hgap : IsPingedWithin pmn (MASTERNODE_MIN_MNP_SECONDS - 60) p.sigTime = false
          · rw [if_pos hgap]
            by_cases hsg : env.pingSigOK p pmn.pubKeyMasternode = false
            · rw [if_pos hsg]
              exact ⟨rfl, fun r2 hr2 => reg_lookup_state reg _ pmn hfind hstate r2 hr2⟩
            · rw [if_neg hsg]
              cases hidx : env.blockIndexHeight p.blockHash with
              | none => exact ⟨rfl, fun r2 hr2 => reg_lookup_state reg _ pmn hfind hstate r2 hr2⟩
              | some ih =>
                dsimp only
                by_cases hor : env.chainContains p.blockHash = false ∨ env.chainHeight - ih > 24
                · rw [if_pos hor]
                  exact ⟨rfl, fun r2 hr2 => reg_lookup_state reg _ pmn hfind hstate r2 hr2⟩
                · rw [if_neg hor]
                  unfold pingApplyUpdate
                  have hst2 : (CMasternode.Check env true { pmn with lastPing := some p }).activeState
                      = MasternodeState.MASTERNODE_VIN_SPENT :=
                    check_state_vinSpent env true _ (by simpa using hstate)
                  have hen : IsEnabled (CMasternode.Check env true { pmn with lastPing := some p }) = false := by
                    simp [IsEnabled, hst2]
                  rw [if_pos hen]
                  refine ⟨rfl, ?_⟩
                  intro r2 hr2
                  have hr2b : regSet reg (pingOutpoint p)
                      (some (CMasternode.Check env true { pmn with lastPing := some p }))
                      (pingOutpoint p) = some r2 := hr2
                  rw [regSet, if_pos rfl] at hr2b
                  injection hr2b with h
                  rw [← h]
                  exact hst2
          · rw [if_neg hgap]
            exact ⟨rfl, fun r2 hr2 => reg_lookup_state reg _ pmn hfind hstate r2 hr2⟩
      · rw [if_neg hproto]
        exact ⟨rfl, fun r2 hr2 => reg_lookup_state reg _ pmn hfind hstate r2 hr2⟩
  · intro env reg mnb d pmn hfind hstate
    unfold CMasternodeBroadcast.CheckAndUpdate
    by_cases h1 : mnb.sigTime > env.adjustedTime + 60 * 60
    · rw [if_pos h1]
    · rw [if_neg h1]
      cases hp : mnb.lastPing with
      | none => rfl
      | some p =>
        dsimp only
        have hsnd := ping_sigTimeOnly_snd env reg p d false
        rcases hres : CMasternodePing.CheckAndUpdate env reg p d false true with ⟨b, d2, r2⟩
        rw [hres] at hsnd
        have hr2 : r2 = reg := hsnd
        rw [hr2]
        cases b
        · rfl
        · show (CMasternodeBroadcast.afterPing env reg mnb d2).2.2 = reg
          have hen : IsEnabled pmn = false := by simp [IsEnabled, hstate]
          unfold CMasternodeBroadcast.afterPing
          simp only [hfind]
          split_ifs <;> first | rfl | (exact absurd hen (by assumption))

/-- Witness for C6: the three amended parts at concrete data on outpoint
    (1, 0) holding the spent-collateral record. -/
theorem C6_vinSpent_witness :
    (CMasternode.Check baseEnv true mnVinSpent).activeState
      = MasternodeState.MASTERNODE_VIN_SPENT ∧
    (CMasternodePing.CheckAndUpdate baseEnv regVinSpent pingW 0 false false).1 = false ∧
    (CMasternodeBroadcast.CheckAndUpdate baseEnv regVinSpent mnbC6 0).2.2 = regVinSpent :=
  ⟨C6_vinSpent_amended.1 baseEnv true mnVinSpent (by decide),
   (C6_vinSpent_amended.2.1 baseEnv regVinSpent pingW 0 false mnVinSpent (by decide) (by decide)).1,
   C6_vinSpent_amended.2.2 baseEnv regVinSpent mnbC6 0 mnVinSpent (by decide) (by decide)⟩

/-- Claim C7, counterexample: a ping whose sigTime sits exactly on the lower
    boundary now - 3600 lies inside the claimed inclusive window, yet the
    timestamp gate rejects it with misbehavior 1 (the code rejects
    sigTime at or below now - 3600). -/
theorem C7_ping_window_counterexample :
    (5000 : Int) - 3600 ≤ 1400 ∧ (1400 : Int) ≤ 5000 + 3600 ∧
    CMasternodePing.CheckAndUpdate { baseEnv with adjustedTime := 5000 } regEmpty
      { pingW with sigTime := 1400 } 0 false false = (false, 1, regEmpty) := by
  refine ⟨by decide, by decide, rfl⟩

/-- Claim C7, amended: the accepted window of the heartbeat timestamp gate is
    the half-open interval from now - 3600 exclusive to now + 3600 inclusive:
    inside it the gate never rejects; at or below now - 3600, or above
    now + 3600, the gate rejects with misbehavior 1, and the whole admission
    returns failure with score 1 and an unchanged registry. -/
theorem C7_ping_window_amended : ∀ now st : Int,
    ((now - 3600 < st ∧ st ≤ now + 3600) → sigTimeWindowDos now st = none) ∧
    ((st ≤ now - 3600 ∨ st > now + 3600) → sigTimeWindowDos now st = some 1) ∧
    (∀ (env : Env) (reg : Registry) (p : CMasternodePing) (d : Int) (fre fso : Bool),
       env.adjustedTime = now → p.sigTime = st → (st ≤ now - 3600 ∨ st > now + 3600) →
       CMasternodePing.CheckAndUpdate env reg p d fre fso = (false, 1, reg)) := by
  intro now st
  refine ⟨?_, ?_, ?_⟩
  · intro h
    unfold sigTimeWindowDos
    rw [if_neg (by omega), if_neg (by omega)]
  · intro h
    unfold sigTimeWindowDos
    split_ifs with a b
    · rfl
    · rfl
    · exfalso
      omega
  · intro env reg p d fre fso he hp hout
    have hgate : sigTimeWindowDos env.adjustedTime p.sigTime = some 1 := by
      unfold sigTimeWindowDos
      rw [he, hp]
      split_ifs with a b
      · rfl
      · rfl
      · exfalso
        omega
    unfold CMasternodePing.CheckAndUpdate
    rw [hgate]

/-- Witness for C7: the inclusive upper bound now + 3600 passes the gate and
    the lower bound now - 3600 is rejected, at now = 5000. -/
theorem C7_ping_window_witness :
    sigTimeWindowDos 5000 8600 = none ∧ sigTimeWindowDos 5000 1400 = some 1 :=
  ⟨(C7_ping_window_amended 5000 8600).1 (by decide),
   (C7_ping_window_amended 5000 1400).2.1 (by decide)⟩

/-- Claim C8, counterexample: under the legacy string scheme (network upgrade
    inactive) Sign returns true as soon as the compact signer produces a
    signature, with no self-verify: with a verifier that rejects everything,
    Sign still succeeds and the stored signature does not verify. -/
theorem C8_sign_counterexample :
    (CMasternodeBroadcast.Sign envC8 mnbS2 5).1 = true ∧
    envC8.verifyMessage 5 (CMasternodeBroadcast.Sign envC8 mnbS2 5).2.vchSig
      (envC8.oldStrMessage (CMasternodeBroadcast.Sign envC8 mnbS2 5).2) = false := by
  refine ⟨by decide, by decide⟩

/-- Claim C8, amended: only the HashMessage scheme self-verifies: when the
    upgrade is active, Sign returns true only if the stored signature
    verifies under the supplied key on the signature-hash message; when the
    upgrade is inactive, Sign returns true whenever the compact signer
    succeeds, storing the signature without any self-verify. -/
theorem C8_sign_selfverify_amended :
    (∀ (env : Env) (mnb : CMasternodeData) (pubKey : Nat) (b : Bool) (out : CMasternodeData),
       env.upgradeActive = true →
       CMasternodeBroadcast.Sign env mnb pubKey = (b, out) → b = true →
       env.verifyMessage pubKey out.vchSig
         (env.sigHashHex { mnb with
            sigTime := env.adjustedTime
            nMessVersion := MessageVersion.MESS_VER_HASH }) = true) ∧
    (∀ (env : Env) (mnb : CMasternodeData) (pubKey : Nat) (sig : List Nat),
       env.upgradeActive = false →
       env.signCompact (env.magicHash (env.oldStrMessage { mnb with
            sigTime := env.adjustedTime
            nMessVersion := MessageVersion.MESS_VER_STRMESS })) = some sig →
       CMasternodeBroadcast.Sign env mnb pubKey
         = (true, { mnb with
              sigTime := env.adjustedTime
              nMessVersion := MessageVersion.MESS_VER_STRMESS
              vchSig := sig })) := by
  constructor
  · intro env mnb pubKey b out hup hsign htrue
    unfold CMasternodeBroadcast.Sign at hsign
    rw [if_pos hup] at hsign
    dsimp only at hsign
    cases hsm : env.signMessage (env.sigHashHex { mnb with
        sigTime := env.adjustedTime
        nMessVersion := MessageVersion.MESS_VER_HASH }) with
    | none =>
      rw [hsm] at hsign
      injection hsign with hb hout
      rw [← hb] at htrue
      cases htrue
    | some sig =>
      rw [hsm] at hsign
      dsimp only at hsign
      by_cases hv : env.verifyMessage pubKey sig (env.sigHashHex { mnb with
          sigTime := env.adjustedTime
          nMessVersion := MessageVersion.MESS_VER_HASH }) = false
      · rw [if_pos hv] at hsign
        injection hsign with hb hout
        rw [← hb] at htrue
        cases htrue
      · rw [if_neg hv] at hsign
        injection hsign with hb hout
        rw [← hout]
        simpa using hv
  · intro env mnb pubKey sig hup hsc
    unfold CMasternodeBroadcast.Sign
    rw [if_neg (by simp [hup])]
    dsimp only
    rw [hsc]

/-- Witness for C8: both amended parts at concrete data: the hash scheme with
    an accepting verifier, and the legacy scheme with the compact signer
    returning the signature [7]. -/
theorem C8_sign_selfverify_witness :
    baseEnv.verifyMessage 5 (CMasternodeBroadcast.Sign baseEnv mnbS2 5).2.vchSig
      (baseEnv.sigHashHex { mnbS2 with
         sigTime := baseEnv.adjustedTime
         nMessVersion := MessageVersion.MESS_VER_HASH }) = true ∧
    CMasternodeBroadcast.Sign envC8 mnbS2 5
      = (true, { mnbS2 with
           sigTime := envC8.adjustedTime
           nMessVersion := MessageVersion.MESS_VER_STRMESS
           vchSig := [7] }) :=
  ⟨C8_sign_selfverify_amended.1 baseEnv mnbS2 5 (CMasternodeBroadcast.Sign baseEnv mnbS2 5).1
      (CMasternodeBroadcast.Sign baseEnv mnbS2 5).2 (by decide) rfl (by decide),
   C8_sign_selfverify_amended.2 envC8 mnbS2 5 [7] (by decide) (by decide)⟩

/-- Claim C9: in CheckInputsAndAdd, an existing non-enabled record for the
    outpoint is removed and, when the collateral validation succeeds, a
    brand-new record built from the announcement (its fields with
    lastTimeChecked reset) is inserted: the registry afterwards maps the
    outpoint to the new record, so the old one is replaced, not left in
    place. -/
theorem C9_checkInputs_replace (env : Env) (reg : Registry) (mnb : CMasternodeData)
    (d : Int) (pmn : CMasternodeData) (p : CMasternodePing)
    (hlocal : env.isLocalActive mnb = false)
    (hp : mnb.lastPing = some p)
    (hw : sigTimeWindowDos env.adjustedTime p.sigTime = none)
    (hsig : ∀ r, reg (pingOutpoint p) = some r → env.pingSigOK p r.pubKeyMasternode = true)
    (hfind : reg (mnOutpoint mnb) = some pmn)
    (hkey : mnOutpoint pmn = mnOutpoint mnb)
    (hnotE : IsEnabled pmn = false)
    (hlock : env.lockMainOK = true)
    (hacc : env.acceptableInputs mnb = true)
    (hdepth : ¬ env.coinDepth (mnOutpoint mnb) < MASTERNODE_MIN_CONFIRMATIONS)
    (htime : ∀ bh, env.collateralBlockHeight (mnOutpoint mnb) = some bh →
        ¬ env.blockTimeAt (bh + MASTERNODE_MIN_CONFIRMATIONS - 1) > mnb.sigTime) :
    (CMasternodeBroadcast.CheckInputsAndAdd env reg mnb d).1 = true ∧
    (CMasternodeBroadcast.CheckInputsAndAdd env reg mnb d).2.2 (mnOutpoint mnb)
      = some (mnFromBroadcast mnb) := by
  unfold CMasternodeBroadcast.CheckInputsAndAdd
  rw [if_neg (by simp [hlocal])]
  simp only [hp]
  rw [ping_sigTimeOnly_ok env reg p d false hw hsig]
  dsimp only
  simp only [hfind]
  rw [if_neg (by simp [hnotE])]
  unfold CMasternodeBroadcast.checkInputsRest
  rw [if_neg (by simp [hlock]), if_neg (by simp [hacc]), if_neg hdepth]
  simp only [mnOutpoint] at hkey
  cases hcb : env.collateralBlockHeight (mnOutpoint mnb) with
  | none =>
    dsimp only
    refine ⟨rfl, ?_⟩
    simp [mnodemanAdd, regSet, mnFromBroadcast, mnOutpoint, hkey]
  | some bh =>
    dsimp only
    rw [if_neg (htime bh hcb)]
    refine ⟨rfl, ?_⟩
    simp [mnodemanAdd, regSet, mnFromBroadcast, mnOutpoint, hkey]

/-- Witness for C9: the replacement at concrete data on outpoint (3, 0): the
    expired record is removed and the registry maps (3, 0) to the record
    built from the announcement. -/
theorem C9_checkInputs_replace_witness :
    (CMasternodeBroadcast.CheckInputsAndAdd baseEnv regC9 mnbC9 0).1 = true ∧
    (CMasternodeBroadcast.CheckInputsAndAdd baseEnv regC9 mnbC9 0).2.2 (mnOutpoint mnbC9)
      = some (mnFromBroadcast mnbC9) :=
  C9_checkInputs_replace baseEnv regC9 mnbC9 0 pmnC9 pingC9 (by decide) (by decide)
    (by decide) (fun r _ => rfl) (by decide) (by decide) (by decide) (by decide) (by decide)
    (by decide) (fun bh h => nomatch h)

/-- Claim C10: in full-mode heartbeat admission, once the signature and the
    referenced block validate, the record takes the ping as lastPing and a
    forced Check runs before the Enabled test, so when admission then fails
    because the post-check state is not Enabled, the registry already holds
    the record with the new lastPing: the failure is not atomic with respect
    to record state. -/
theorem C10_ping_nonatomic (env : Env) (reg : Registry) (p : CMasternodePing)
    (d : Int) (fre : Bool) (pmn : CMasternodeData) (ih : Int)
    (hw : sigTimeWindowDos env.adjustedTime p.sigTime = none)
    (hfind : reg (pingOutpoint p) = some pmn)
    (hproto : pmn.protocolVersion ≥ env.activeProtocol)
    (hre : fre = true → IsEnabled pmn = true)
    (hgap : IsPingedWithin pmn (MASTERNODE_MIN_MNP_SECONDS - 60) p.sigTime = false)
    (hsg : env.pingSigOK p pmn.pubKeyMasternode = true)
    (hidx : env.blockIndexHeight p.blockHash = some ih)
    (hcont : env.chainContains p.blockHash = true)
    (hage : ¬ env.chainHeight - ih > 24)
    (hnotE : IsEnabled (CMasternode.Check env true { pmn with lastPing := some p }) = false) :
    CMasternodePing.CheckAndUpdate env reg p d fre false
      = (false, d, regSet reg (pingOutpoint p)
          (some (CMasternode.Check env true { pmn with lastPing := some p }))) ∧
    (CMasternode.Check env true { pmn with lastPing := some p }).lastPing = some p := by
  constructor
  · unfold CMasternodePing.CheckAndUpdate
    rw [hw]
    simp only [hfind]
    rw [if_neg (by simp : ¬((false : Bool) = true)), if_pos hproto]
    have hq : ¬(fre = true ∧ IsEnabled pmn = false) := by
      rintro ⟨hf, hie⟩
      rw [hre hf] at hie
      cases hie
    rw [if_neg hq, if_pos hgap, if_neg (by simp [hsg]), hidx]
    dsimp only
    rw [if_neg (by simp [hcont, hage])]
    unfold pingApplyUpdate
    rw [if_pos hnotE]
  · rw [check_lastPing_preserved]

/-- Witness for C10: at concrete data, the expired record on outpoint (1, 0)
    moves to PreEnabled (not Enabled) under the forced post-ping Check, the
    admission fails, and the stored record already carries the ping. -/
theorem C10_ping_nonatomic_witness :
    CMasternodePing.CheckAndUpdate baseEnv regExpired pingW 0 false false
      = (false, 0, regSet regExpired (pingOutpoint pingW)
          (some (CMasternode.Check baseEnv true { mnExpired with lastPing := some pingW }))) ∧
    (CMasternode.Check baseEnv true { mnExpired with lastPing := some pingW }).lastPing
      = some pingW :=
  C10_ping_nonatomic baseEnv regExpired pingW 0 false mnExpired 100 (by decide) (by decide)
    (by decide) (fun hf => nomatch hf) (by decide) (by decide) (by decide) (by decide)
    (by decide) (by decide)
